import Mathlib

/-!
Verification of the assessment wizard and risk-scoring core of the
evaluaT repository (frontend/src/App.js, AssessmentComponent), embedded
shallowly in Lean.

Layers:
* source layer: a direct translation of the React component state and
  handlers (`handleAnswer`, `handleNext`, `handlePrevious`, the
  `questions[currentStep]` lookup, and the enabled/disabled conditions of
  the navigation buttons);
* engine layer: the wizard engine of the specification
  (`selectAnswer` / `advance` / `retreat` / `currentQuestion` with named
  errors), whose guards correspond to the source's UI constraints;
* scoring layer: the risk-scoring function, modelled from the spec
  because the backend that computes it is not part of this repository's
  sources.
-/

/-- An answer option of a question, from the `options` arrays of
`AssessmentComponent` (App.js 2386-2472): `{value, label}`. `value` is the
canonical token recorded in the response map; `label` is presentation
text. -/
structure AnswerOption where
  value : String
  label : String
deriving DecidableEq, Repr

/-- A wizard question, from the `questions` array of `AssessmentComponent`
(App.js 2386-2472): `{id, question, options}`. The source also carries a
`type: 'radio'` field, identical on every entry and purely presentational,
which is omitted here. -/
structure Question where
  id : String
  question : String
  options : List AnswerOption
deriving DecidableEq, Repr

/-- The fixed, ordered question list of `AssessmentComponent`
(App.js 2386-2472; the identical list appears in the older copy at
unnamed/part_000 736-822). -/
def questions : List Question :=
  [ { id := "company_description"
    , question := "¿Cuál es la actividad principal de su empresa?"
    , options :=
      [ ⟨"medical_diagnosis", "Diagnóstico médico con IA"⟩
      , ⟨"treatment_recommendation", "Recomendaciones de tratamiento"⟩
      , ⟨"insurance_risk_assessment", "Evaluación de riesgos de seguros"⟩
      , ⟨"automated_underwriting", "Suscripción automática"⟩
      , ⟨"other", "Otro"⟩ ] }
  , { id := "medical_diagnosis"
    , question := "¿Su sistema de IA realiza diagnósticos médicos automáticos?"
    , options :=
      [ ⟨"yes", "Sí, diagnósticos completamente automáticos"⟩
      , ⟨"partial", "Sí, pero con supervisión médica"⟩
      , ⟨"no", "No, solo proporciona información de apoyo"⟩ ] }
  , { id := "automated_decision_making"
    , question := "¿Su IA toma decisiones automatizadas que afectan significativamente a las personas?"
    , options :=
      [ ⟨"yes", "Sí, decisiones completamente automáticas"⟩
      , ⟨"partial", "Sí, pero con revisión humana"⟩
      , ⟨"no", "No, solo recomendaciones"⟩ ] }
  , { id := "biometric_identification"
    , question := "¿Utiliza identificación biométrica en tiempo real?"
    , options :=
      [ ⟨"yes", "Sí, identificación biométrica en tiempo real"⟩
      , ⟨"partial", "Sí, pero no en tiempo real"⟩
      , ⟨"no", "No utiliza identificación biométrica"⟩ ] }
  , { id := "emotion_recognition"
    , question := "¿Su sistema reconoce o categoriza emociones?"
    , options :=
      [ ⟨"yes", "Sí, reconocimiento de emociones"⟩
      , ⟨"partial", "Parcialmente, análisis de sentimientos básico"⟩
      , ⟨"no", "No reconoce emociones"⟩ ] }
  , { id := "data_processing"
    , question := "¿Qué tipo de datos personales procesa su IA?"
    , options :=
      [ ⟨"sensitive", "Datos de salud, biométricos o genéticos"⟩
      , ⟨"personal", "Datos personales generales"⟩
      , ⟨"anonymous", "Solo datos anonimizados"⟩
      , ⟨"none", "No procesa datos personales"⟩ ] }
  , { id := "transparency"
    , question := "¿Los usuarios están informados sobre el uso de IA?"
    , options :=
      [ ⟨"full", "Información completa y clara"⟩
      , ⟨"partial", "Información básica"⟩
      , ⟨"minimal", "Información mínima"⟩
      , ⟨"none", "No se informa explícitamente"⟩ ] }
  , { id := "human_oversight"
    , question := "¿Existe supervisión humana en las decisiones de IA?"
    , options :=
      [ ⟨"continuous", "Supervisión humana continua"⟩
      , ⟨"periodic", "Revisión periódica por humanos"⟩
      , ⟨"exception", "Solo en casos excepcionales"⟩
      , ⟨"none", "No hay supervisión humana"⟩ ] } ]

/-- Lookup in the `responses` object (a JS object keyed by question id),
embedded as an association list: `responses[qid]`, `none` standing for
`undefined`. -/
def lookupR (rs : List (String × String)) (qid : String) : Option String :=
  (rs.find? (fun p => p.1 == qid)).map (fun p => p.2)

/-- The update `{...prev, [questionId]: value}` performed by `handleAnswer`
(App.js 2474-2479): every other key keeps its value and its position; an
existing key for `questionId` is overwritten in place, a new one is
appended. -/
def setResponse (rs : List (String × String)) (qid v : String) :
    List (String × String) :=
  if rs.any (fun p => p.1 == qid) then
    rs.map (fun p => if p.1 == qid then (qid, v) else p)
  else
    rs ++ [(qid, v)]

/-- JavaScript truthiness of a possibly-absent string value:
`undefined` and the empty string are falsy, every other string truthy.
Used by the `disabled={!responses[currentQuestion.id]}` gate on the Next
button (App.js 2665-2668). -/
def jsTruthy : Option String → Bool
  | none => false
  | some s => !(s == "")

/-- The component state of `AssessmentComponent` (App.js 2380-2384):
`currentStep`, `responses`, and a flag recording that `submitAssessment`
has been triggered (the POST to the backend, after which the question UI
is replaced by the result view). -/
structure AppState where
  currentStep : Nat
  responses : List (String × String)
  submitted : Bool
deriving DecidableEq, Repr

/-- The initial component state: `useState(0)`, `useState({})`
(App.js 2381-2382). -/
def initAppState : AppState := ⟨0, [], false⟩

/-- `handleAnswer` (App.js 2474-2479): records `responses[questionId] = value`
via object spread; touches nothing else. -/
def handleAnswer (s : AppState) (qid v : String) : AppState :=
  { s with responses := setResponse s.responses qid v }

/-- `handleNext` (App.js 2481-2487): below the last step it increments
`currentStep`; at the last step it calls `submitAssessment()` instead,
leaving `currentStep` unchanged. -/
def handleNext (s : AppState) : AppState :=
  if s.currentStep < questions.length - 1 then
    { s with currentStep := s.currentStep + 1 }
  else
    { s with submitted := true }

/-- `handlePrevious` (App.js 2489-2493): decrements `currentStep` when it is
positive, otherwise leaves the state unchanged. -/
def handlePrevious (s : AppState) : AppState :=
  if 0 < s.currentStep then { s with currentStep := s.currentStep - 1 } else s

/-- The lookup `questions[currentStep]` (App.js 2507), `none` standing for
the `undefined` a JS out-of-bounds array access yields. -/
def currentQuestionA (s : AppState) : Option Question :=
  questions.get? s.currentStep

/-- The enabling condition of the Next button,
`!disabled` for `disabled={!responses[currentQuestion.id]}`
(App.js 2665-2668). -/
def nextEnabled (s : AppState) : Bool :=
  match currentQuestionA s with
  | some q => jsTruthy (lookupR s.responses q.id)
  | none => false

/-- The states `AssessmentComponent` can reach through its UI: starting from
the initial state, the user can pick one of the current question's options
(the `RadioGroup` at App.js 2641-2653 renders exactly those and calls
`handleAnswer(currentQuestion.id, value)`), press Next when it is enabled
(App.js 2665-2668), or press Previous (App.js 2657-2663); all only while
the question view is shown, i.e. before submission. -/
inductive ReachUI : AppState → Prop
  | init : ReachUI initAppState
  | answer (s : AppState) (q : Question) (v : String) :
      ReachUI s → s.submitted = false → currentQuestionA s = some q →
      v ∈ q.options.map AnswerOption.value → ReachUI (handleAnswer s q.id v)
  | next (s : AppState) :
      ReachUI s → s.submitted = false → nextEnabled s = true →
      ReachUI (handleNext s)
  | prev (s : AppState) :
      ReachUI s → s.submitted = false → ReachUI (handlePrevious s)

/-! ## Engine layer

The specification's error taxonomy (§7) and wizard-engine contract (§4.1).
The engine's behaviour is the source component's: the gates are the
source's disabled buttons and the options offered by the `RadioGroup`; the
named errors are the spec's names for the cases the source UI makes
unreachable (the source itself raises no such errors). -/

/-- The error taxonomy of the specification (§7). Modelled from the spec:
the source never constructs error values; these name the refused cases. -/
inductive AppError where
  | OutOfRangeError
  | InvalidOptionError
  | UnknownQuestionError
  | IncompleteStepError
  | IncompleteAssessmentError
  | IncompleteAnswerSetError
deriving DecidableEq, Repr

/-- The wizard cursor and collected answers (spec §3 `WizardState`);
the source keeps the same two pieces as the `currentStep` and `responses`
state of `AssessmentComponent`. -/
structure WizardState where
  currentStepIndex : Nat
  answers : List (String × String)
deriving DecidableEq, Repr

/-- `start()` (spec §4.1): fresh state, step 0, empty answers
(`useState(0)`, `useState({})` in the source). -/
def startState : WizardState := ⟨0, []⟩

/-- `currentQuestion(state)`: the source lookup `questions[currentStep]`
(App.js 2507). Modelled from the spec: the `OutOfRangeError` name stands
for the `undefined` the source lookup yields past the end of the array. -/
def currentQuestionE (s : WizardState) : Except AppError Question :=
  match questions.get? s.currentStepIndex with
  | some q => .ok q
  | none => .error .OutOfRangeError

/-- The id of the question at the current step, when there is one. -/
def currentQuestionId (s : WizardState) : Option String :=
  (questions.get? s.currentStepIndex).map Question.id

/-- The option values declared for a question id (empty when no question
has that id). -/
def declaredOptions (qid : String) : List String :=
  match questions.find? (fun q => q.id == qid) with
  | some q => q.options.map AnswerOption.value
  | none => []

/-- `selectAnswer(state, questionId, value)` (spec §4.1). Modelled from the
spec: the source's `handleAnswer` (App.js 2474-2479) records
unconditionally, and the two validations correspond to what the UI makes
impossible — the `RadioGroup` (App.js 2641-2653) offers only the current
question's declared options and always passes `currentQuestion.id`. The
checks run in the spec's sentence order: option validity first, then the
current-step check. -/
def selectAnswer (s : WizardState) (qid v : String) :
    Except AppError WizardState :=
  if v ∈ declaredOptions qid then
    if currentQuestionId s = some qid then
      .ok ⟨s.currentStepIndex, setResponse s.answers qid v⟩
    else .error .UnknownQuestionError
  else .error .InvalidOptionError

/-- Whether the answer set has an entry for the current question's id
(false when there is no current question). This is the source's Next-button
gate `responses[currentQuestion.id]` (App.js 2665-2668), with entry
presence in place of JS truthiness (the engine only records declared,
non-empty option values). -/
def answeredCurrent (s : WizardState) : Bool :=
  match questions.get? s.currentStepIndex with
  | some q => (lookupR s.answers q.id).isSome
  | none => false

/-- `advance(state)` (spec §4.1). Modelled from the spec: the increment is
the source's `setCurrentStep(currentStep + 1)` (App.js 2481-2487), the
gate is the disabled Next button, and `IncompleteStepError` names the
disabled case; stepping from the last question to index `questionCount`
is the terminal transition the source realises as `submitAssessment()`. -/
def advance (s : WizardState) : Except AppError WizardState :=
  match questions.get? s.currentStepIndex with
  | none => .error .OutOfRangeError
  | some q =>
      if (lookupR s.answers q.id).isSome then
        .ok ⟨s.currentStepIndex + 1, s.answers⟩
      else .error .IncompleteStepError

/-- `retreat(state)` (spec §4.1): the source's `handlePrevious`
(App.js 2489-2493) — decrement, floored at 0, answers untouched. -/
def retreat (s : WizardState) : WizardState :=
  if 0 < s.currentStepIndex then
    { s with currentStepIndex := s.currentStepIndex - 1 }
  else s

/-- Engine states reachable from `startState` by any sequence of
successful `selectAnswer`, `advance` and `retreat` operations. -/
inductive ReachE : WizardState → Prop
  | init : ReachE startState
  | select (s s' : WizardState) (qid v : String) :
      ReachE s → selectAnswer s qid v = .ok s' → ReachE s'
  | adv (s s' : WizardState) :
      ReachE s → advance s = .ok s' → ReachE s'
  | ret (s : WizardState) : ReachE s → ReachE (retreat s)

/-! ## Scoring layer

Modelled from the spec: the scoring computation runs in the backend behind
`POST /assessments` (App.js 2495-2505) and its code is not among this
repository's sources; the definitions below follow spec §4.2 word for
word (rule table as configuration, sum, clamp, thresholds, status
mapping). Scores are rationals, the exact fragment of the floats
involved. `created_at`, the one non-deterministic field, is omitted. -/

/-- Risk level enumeration (spec §3). -/
inductive RiskLevel where
  | minimal
  | limited
  | high
  | unacceptable
deriving DecidableEq, Repr

/-- Compliance status enumeration (spec §3). -/
inductive ComplianceStatus where
  | compliant
  | partially_compliant
  | non_compliant
  | not_assessed
deriving DecidableEq, Repr

/-- A risk rule (spec §3, §6): one `(questionId, answerValue)` pair with a
score contribution and an optional recommendation. The concrete table is
backend configuration not present in the sources, so the scoring function
is parametric in it. -/
structure RiskRule where
  questionId : String
  answerValue : String
  scoreDelta : ℚ
  recommendation : Option String
deriving DecidableEq, Repr

/-- The deterministic part of `AssessmentResult` (spec §3). -/
structure ScoreResult where
  risk_score : ℚ
  risk_level : RiskLevel
  compliance_status : ComplianceStatus
  recommendations : List String
deriving DecidableEq, Repr

/-- An `AnswerSet` is complete when it has an entry for every question id
in the fixed list (spec §3). -/
def isCompleteAnswerSet (answers : List (String × String)) : Bool :=
  questions.all (fun q => (lookupR answers q.id).isSome)

/-- The rules triggered by an answer set: those whose
`(questionId, answerValue)` pair matches a recorded answer (spec §4.2
step 1), in rule-table declaration order. -/
def triggeredRules (rules : List RiskRule) (answers : List (String × String)) :
    List RiskRule :=
  rules.filter (fun r => lookupR answers r.questionId == some r.answerValue)

/-- Step 2: sum the triggered contributions. -/
def totalScore (rules : List RiskRule) (answers : List (String × String)) : ℚ :=
  ((triggeredRules rules answers).map RiskRule.scoreDelta).sum

/-- Step 3: clamp to [0, 10] — a saturating floor/ceiling, no rescale. -/
def clampScore (x : ℚ) : ℚ := if x < 0 then 0 else if 10 < x then 10 else x

/-- Step 4: fixed thresholds, inclusive on each band's lower bound. -/
def riskLevelOf (x : ℚ) : RiskLevel :=
  if x < 5/2 then .minimal
  else if x < 5 then .limited
  else if x < 15/2 then .high
  else .unacceptable

/-- Step 5: the fixed, total risk-level → compliance-status mapping. -/
def complianceOf : RiskLevel → ComplianceStatus
  | .minimal => .compliant
  | .limited => .partially_compliant
  | .high => .partially_compliant
  | .unacceptable => .non_compliant

/-- Ordered de-duplication keeping first occurrences, for step 6. -/
def dedupFirst (seen : List String) : List String → List String
  | [] => []
  | x :: xs =>
      if x ∈ seen then dedupFirst seen xs
      else x :: dedupFirst (x :: seen) xs

/-- Step 6: the recommendations of the triggered rules, in declaration
order, de-duplicated. -/
def recommendationsOf (rules : List RiskRule)
    (answers : List (String × String)) : List String :=
  dedupFirst [] ((triggeredRules rules answers).filterMap RiskRule.recommendation)

/-- `score(answers)` (spec §4.2): total on complete answer sets, fails with
`IncompleteAnswerSetError` otherwise, never partially computes. -/
def score (rules : List RiskRule) (answers : List (String × String)) :
    Except AppError ScoreResult :=
  if isCompleteAnswerSet answers then
    .ok
      { risk_score := clampScore (totalScore rules answers)
      , risk_level := riskLevelOf (clampScore (totalScore rules answers))
      , compliance_status :=
          complianceOf (riskLevelOf (clampScore (totalScore rules answers)))
      , recommendations := recommendationsOf rules answers }
  else .error .IncompleteAnswerSetError

/-! ## Witness fixtures -/

instance {ε α : Type} [DecidableEq ε] [DecidableEq α] :
    DecidableEq (Except ε α) := fun a b =>
  match a, b with
  | .ok x, .ok y =>
      if h : x = y then .isTrue (by rw [h])
      else .isFalse (fun hh => h (by cases hh; rfl))
  | .error x, .error y =>
      if h : x = y then .isTrue (by rw [h])
      else .isFalse (fun hh => h (by cases hh; rfl))
  | .ok _, .error _ => .isFalse (fun hh => Except.noConfusion hh)
  | .error _, .ok _ => .isFalse (fun hh => Except.noConfusion hh)

/-- A complete answer set: one declared option value per question id. -/
def wAnswers : List (String × String) :=
  [ ("company_description", "other")
  , ("medical_diagnosis", "no")
  , ("automated_decision_making", "no")
  , ("biometric_identification", "no")
  , ("emotion_recognition", "no")
  , ("data_processing", "none")
  , ("transparency", "none")
  , ("human_oversight", "none") ]

/-- A one-rule table putting `wAnswers` exactly on the 5/2 boundary. -/
def wRulesBoundary : List RiskRule :=
  [⟨"transparency", "none", 5/2, some "Informar a los usuarios sobre el uso de IA"⟩]

/-- The result of scoring `wAnswers` against `wRulesBoundary`. -/
def wResultBoundary : ScoreResult :=
  ⟨5/2, .limited, .partially_compliant,
    ["Informar a los usuarios sobre el uso de IA"]⟩

/-- A one-rule table whose contribution overshoots the ceiling. -/
def wRulesOverflow : List RiskRule :=
  [⟨"medical_diagnosis", "no", 12, some "Documentar el sistema"⟩]

/-- The result of scoring `wAnswers` against `wRulesOverflow`: saturated. -/
def wResultOverflow : ScoreResult :=
  ⟨10, .unacceptable, .non_compliant, ["Documentar el sistema"]⟩

/-- A wizard state one step in, with the first question answered. -/
def wState1 : WizardState := ⟨1, [("company_description", "other")]⟩

/-! ## Helper lemmas -/

theorem lookupR_cons (p : String × String) (rs : List (String × String))
    (qid : String) :
    lookupR (p :: rs) qid = if p.1 == qid then some p.2 else lookupR rs qid := by
  cases h : p.1 == qid <;> simp [lookupR, List.find?_cons, h]

theorem lookupR_map_set_self (qid v : String) (rs : List (String × String))
    (h : rs.any (fun p => p.1 == qid) = true) :
    lookupR (rs.map (fun p => if p.1 == qid then (qid, v) else p)) qid = some v := by
  induction rs with
  | nil => simp at h
  | cons p rs ih =>
      cases hp : p.1 == qid with
      | true =>
          have hp' : p.1 = qid := by simpa using hp
          simp [lookupR_cons, hp']
      | false =>
          have hp' : ¬p.1 = qid := by simpa using hp
          have h' : rs.any (fun p => p.1 == qid) = true := by
            simpa [hp] using h
          simpa [lookupR_cons, hp'] using ih h'

theorem lookupR_map_set_other (qid v qid' : String) (hne : qid' ≠ qid)
    (rs : List (String × String)) :
    lookupR (rs.map (fun p => if p.1 == qid then (qid, v) else p)) qid' =
      lookupR rs qid' := by
  induction rs with
  | nil => rfl
  | cons p rs ih =>
      cases hp : p.1 == qid with
      | true =>
          have hp' : p.1 = qid := by simpa using hp
          have ih' := ih
          simp only [beq_iff_eq] at ih'
          simp [lookupR_cons, hp', hne.symm, ih']
      | false =>
          have hp' : ¬p.1 = qid := by simpa using hp
          have ih' := ih
          simp only [beq_iff_eq] at ih'
          simp [lookupR_cons, hp', ih']

theorem lookupR_append_self (qid v : String) (rs : List (String × String))
    (h : rs.any (fun p => p.1 == qid) = false) :
    lookupR (rs ++ [(qid, v)]) qid = some v := by
  induction rs with
  | nil => simp [lookupR]
  | cons p rs ih =>
      cases hp : p.1 == qid with
      | true => rw [List.any_cons, hp] at h; simp at h
      | false =>
          have hp' : ¬p.1 = qid := by simpa using hp
          have h' : rs.any (fun p => p.1 == qid) = false := by
            simpa [hp] using h
          simp [lookupR_cons, hp', ih h']

theorem lookupR_append_other (qid v qid' : String) (hne : qid' ≠ qid)
    (rs : List (String × String)) :
    lookupR (rs ++ [(qid, v)]) qid' = lookupR rs qid' := by
  induction rs with
  | nil => simp [lookupR, hne.symm]
  | cons p rs ih => simp [lookupR_cons, ih]

theorem lookupR_setResponse_same (rs : List (String × String)) (qid v : String) :
    lookupR (setResponse rs qid v) qid = some v := by
  unfold setResponse
  cases h : rs.any (fun p => p.1 == qid) with
  | true => simpa [h] using lookupR_map_set_self qid v rs h
  | false => simpa [h] using lookupR_append_self qid v rs h

theorem lookupR_setResponse_other (rs : List (String × String))
    (qid v qid' : String) (hne : qid' ≠ qid) :
    lookupR (setResponse rs qid v) qid' = lookupR rs qid' := by
  unfold setResponse
  cases h : rs.any (fun p => p.1 == qid) with
  | true => simpa [h] using lookupR_map_set_other qid v qid' hne rs
  | false => simpa [h] using lookupR_append_other qid v qid' hne rs

theorem riskLevelOf_iff (x : ℚ) :
    (riskLevelOf x = .minimal ↔ x < 5/2) ∧
    (riskLevelOf x = .limited ↔ 5/2 ≤ x ∧ x < 5) ∧
    (riskLevelOf x = .high ↔ 5 ≤ x ∧ x < 15/2) ∧
    (riskLevelOf x = .unacceptable ↔ 15/2 ≤ x) := by
  unfold riskLevelOf
  split_ifs with h1 h2 h3 <;>
    refine ⟨?_, ?_, ?_, ?_⟩ <;> simp <;> intros <;>
    first
      | linarith
      | (constructor <;> linarith)

/-! ## More helper lemmas -/

theorem questions_length : questions.length = 8 := rfl

theorem questions_get_isSome :
    ∀ n, n < questions.length → (questions.get? n).isSome = true := by decide

theorem questions_get_lt (n : Nat) (q : Question)
    (h : questions.get? n = some q) : n < questions.length := by
  by_contra hc
  push_neg at hc
  rw [List.get?_eq_none.mpr hc] at h
  exact Option.noConfusion h

theorem advance_of_answered (t : WizardState) (h : answeredCurrent t = true) :
    advance t = .ok ⟨t.currentStepIndex + 1, t.answers⟩ := by
  unfold answeredCurrent at h
  cases hg : questions.get? t.currentStepIndex with
  | none => rw [hg] at h; simp at h
  | some q =>
      rw [hg] at h
      have h' : (lookupR t.answers q.id).isSome = true := h
      unfold advance
      rw [hg]
      simp [h']

theorem advance_of_not_answered (t : WizardState)
    (hlt : t.currentStepIndex < questions.length)
    (h : answeredCurrent t = false) :
    advance t = .error .IncompleteStepError := by
  have hq := questions_get_isSome t.currentStepIndex hlt
  cases hg : questions.get? t.currentStepIndex with
  | none => rw [hg] at hq; simp at hq
  | some q =>
      unfold answeredCurrent at h
      rw [hg] at h
      have h' : (lookupR t.answers q.id).isSome = false := h
      unfold advance
      rw [hg]
      simp [h']

theorem reachUI_step_lt (s : AppState) (h : ReachUI s) :
    s.currentStep < questions.length := by
  induction h with
  | init => decide
  | answer s q v hs hsub hq hv ih => exact ih
  | next s hs hsub hen ih =>
      unfold handleNext
      split
      case isTrue h' =>
        show s.currentStep + 1 < questions.length
        rw [questions_length] at h' ⊢
        omega
      case isFalse h' => exact ih
  | prev s hs hsub ih =>
      unfold handlePrevious
      split
      case isTrue h' =>
        show s.currentStep - 1 < questions.length
        exact lt_of_le_of_lt (Nat.sub_le _ _) ih
      case isFalse h' => exact ih

/-! ## Claim theorems -/

/-- Claim C2: for every rule table and every answer set the scoring function
accepts, the risk level is derived from the clamped risk score by fixed
bands with inclusive lower bounds: below 5/2 minimal, from 5/2 up to but
excluding 5 limited, from 5 up to but excluding 15/2 high, and from 15/2 on
unacceptable — so exactly 5/2 is limited, exactly 5 is high and exactly
15/2 is unacceptable. -/
theorem claim_C2_risk_bands (rules : List RiskRule)
    (answers : List (String × String)) (r : ScoreResult)
    (h : score rules answers = .ok r) :
    (r.risk_level = .minimal ↔ r.risk_score < 5/2) ∧
    (r.risk_level = .limited ↔ 5/2 ≤ r.risk_score ∧ r.risk_score < 5) ∧
    (r.risk_level = .high ↔ 5 ≤ r.risk_score ∧ r.risk_score < 15/2) ∧
    (r.risk_level = .unacceptable ↔ 15/2 ≤ r.risk_score) := by
  unfold score at h
  split at h
  · cases h
    exact riskLevelOf_iff (clampScore (totalScore rules answers))
  · exact Except.noConfusion h

/-- Witness for C2: applied at a concrete table and complete answer set
whose clamped score is exactly 5/2, the boundary case of the limited band. -/
theorem claim_C2_witness :
    wResultBoundary.risk_level = .limited ↔
      5/2 ≤ wResultBoundary.risk_score ∧ wResultBoundary.risk_score < 5 :=
  (claim_C2_risk_bands wRulesBoundary wAnswers wResultBoundary (by
    simp +decide [score, isCompleteAnswerSet, questions, lookupR, wAnswers,
      wRulesBoundary, triggeredRules, totalScore, clampScore, riskLevelOf,
      complianceOf, recommendationsOf, dedupFirst, wResultBoundary]
    norm_num)).2.1

/-- Claim C3: every risk score the scoring function returns lies in
[0, 10], and it equals the saturating clamp of the accumulated rule
contributions (a floor/ceiling, not a rescale). -/
theorem claim_C3_clamp (rules : List RiskRule)
    (answers : List (String × String)) (r : ScoreResult)
    (h : score rules answers = .ok r) :
    0 ≤ r.risk_score ∧ r.risk_score ≤ 10 ∧
    r.risk_score = clampScore (totalScore rules answers) := by
  unfold score at h
  split at h
  · cases h
    have hx : ∀ x : ℚ, 0 ≤ clampScore x ∧ clampScore x ≤ 10 := by
      intro x
      unfold clampScore
      split_ifs <;> constructor <;> linarith
    exact ⟨(hx _).1, (hx _).2, rfl⟩
  · exact Except.noConfusion h

/-- Witness for C3: a rule contribution of 12 saturates to a risk score of
exactly 10. -/
theorem claim_C3_witness :
    0 ≤ wResultOverflow.risk_score ∧ wResultOverflow.risk_score ≤ 10 ∧
    wResultOverflow.risk_score = clampScore (totalScore wRulesOverflow wAnswers) :=
  claim_C3_clamp wRulesOverflow wAnswers wResultOverflow (by
    simp +decide [score, isCompleteAnswerSet, questions, lookupR, wAnswers,
      wRulesOverflow, triggeredRules, totalScore, clampScore, riskLevelOf,
      complianceOf, recommendationsOf, dedupFirst, wResultOverflow]
    norm_num)

/-- Claim C4: the compliance status of every scoring result is derived from
its risk level by the fixed total mapping minimal ↦ compliant,
limited ↦ partially compliant, high ↦ partially compliant,
unacceptable ↦ non compliant. -/
theorem claim_C4_compliance (rules : List RiskRule)
    (answers : List (String × String)) (r : ScoreResult)
    (h : score rules answers = .ok r) :
    r.compliance_status = complianceOf r.risk_level ∧
    complianceOf .minimal = .compliant ∧
    complianceOf .limited = .partially_compliant ∧
    complianceOf .high = .partially_compliant ∧
    complianceOf .unacceptable = .non_compliant := by
  unfold score at h
  split at h
  · cases h
    exact ⟨rfl, rfl, rfl, rfl, rfl⟩
  · exact Except.noConfusion h

/-- Witness for C4: applied at the saturated concrete result, whose
unacceptable level maps to non compliant. -/
theorem claim_C4_witness :
    wResultOverflow.compliance_status = complianceOf wResultOverflow.risk_level ∧
    complianceOf .minimal = .compliant ∧
    complianceOf .limited = .partially_compliant ∧
    complianceOf .high = .partially_compliant ∧
    complianceOf .unacceptable = .non_compliant :=
  claim_C4_compliance wRulesOverflow wAnswers wResultOverflow (by
    simp +decide [score, isCompleteAnswerSet, questions, lookupR, wAnswers,
      wRulesOverflow, triggeredRules, totalScore, clampScore, riskLevelOf,
      complianceOf, recommendationsOf, dedupFirst, wResultOverflow]
    norm_num)

/-- Claim C1: for every wizard state at a valid step, `advance` returns the
state with the step index incremented by one exactly when the answer set
already has an entry for the current question's id, and fails with
`IncompleteStepError` (returning no new state) when that entry is
missing. -/
theorem claim_C1_advance_gate (s : WizardState)
    (h : s.currentStepIndex < questions.length) :
    (answeredCurrent s = true →
      advance s = .ok ⟨s.currentStepIndex + 1, s.answers⟩) ∧
    (answeredCurrent s = false →
      advance s = .error .IncompleteStepError) :=
  ⟨fun ha => advance_of_answered s ha,
   fun ha => advance_of_not_answered s h ha⟩

/-- Witness for C1: at the fresh state nothing is answered, so `advance`
fails with `IncompleteStepError`. -/
theorem claim_C1_witness :
    advance startState = .error .IncompleteStepError :=
  (claim_C1_advance_gate startState (by decide)).2 rfl

/-- Claim C5: `selectAnswer` fails with `InvalidOptionError` when the value
is not among the options declared for the question id, fails with
`UnknownQuestionError` when the value is declared but the question id is
not the current step's question, and only when both checks pass returns the
state with the answer recorded under that id. -/
theorem claim_C5_selectAnswer (s : WizardState) (qid v : String) :
    (v ∉ declaredOptions qid →
      selectAnswer s qid v = .error .InvalidOptionError) ∧
    (v ∈ declaredOptions qid → currentQuestionId s ≠ some qid →
      selectAnswer s qid v = .error .UnknownQuestionError) ∧
    (v ∈ declaredOptions qid → currentQuestionId s = some qid →
      selectAnswer s qid v = .ok ⟨s.currentStepIndex, setResponse s.answers qid v⟩ ∧
      lookupR (setResponse s.answers qid v) qid = some v) := by
  unfold selectAnswer
  refine ⟨?_, ?_, ?_⟩
  · intro hv
    rw [if_neg hv]
  · intro hv hc
    rw [if_pos hv, if_neg hc]
  · intro hv hc
    rw [if_pos hv, if_pos hc]
    exact ⟨rfl, lookupR_setResponse_same s.answers qid v⟩

/-- Witness for C5: selecting a declared option of the current (first)
question from the fresh state records it. -/
theorem claim_C5_witness :
    selectAnswer startState "company_description" "other" =
      .ok ⟨0, setResponse [] "company_description" "other"⟩ ∧
    lookupR (setResponse [] "company_description" "other") "company_description" =
      some "other" :=
  (claim_C5_selectAnswer startState "company_description" "other").2.2
    (by decide) (by decide)

/-- Claim C6: at the terminal index `questionCount`, `currentQuestion`
fails with `OutOfRangeError` instead of returning a question. -/
theorem claim_C6_currentQuestion_terminal (s : WizardState)
    (h : s.currentStepIndex = questions.length) :
    currentQuestionE s = .error .OutOfRangeError := by
  unfold currentQuestionE
  rw [h]
  rfl

/-- Witness for C6: the terminal state at index 8. -/
theorem claim_C6_witness :
    currentQuestionE ⟨8, []⟩ = .error .OutOfRangeError :=
  claim_C6_currentQuestion_terminal ⟨8, []⟩ rfl

/-- Claim C7: `retreat` decrements the step index by one, floored at zero,
and leaves the answer set untouched; when the revisited step is answered,
advancing again restores exactly the state retreated from, the previous
answer still present without re-selection. -/
theorem claim_C7_retreat_roundtrip (s : WizardState) :
    (retreat s).currentStepIndex = s.currentStepIndex - 1 ∧
    (retreat s).answers = s.answers ∧
    (0 < s.currentStepIndex → answeredCurrent (retreat s) = true →
      advance (retreat s) = .ok s) := by
  obtain ⟨i, a⟩ := s
  unfold retreat
  split
  case isTrue hpos =>
    refine ⟨rfl, rfl, fun _ hans => ?_⟩
    rw [advance_of_answered _ hans]
    have hi : i - 1 + 1 = i := Nat.succ_pred_eq_of_pos hpos
    simp [hi]
  case isFalse hpos =>
    have h0 : i = 0 := Nat.eq_zero_of_not_pos hpos
    subst h0
    exact ⟨rfl, rfl, fun hp _ => absurd hp (Nat.lt_irrefl 0)⟩

/-- Witness for C7: from step 1 with the first question answered, retreat
then advance restores the original state. -/
theorem claim_C7_witness :
    (retreat wState1).currentStepIndex = wState1.currentStepIndex - 1 ∧
    (retreat wState1).answers = wState1.answers ∧
    advance (retreat wState1) = .ok wState1 := by
  obtain ⟨h1, h2, h3⟩ := claim_C7_retreat_roundtrip wState1
  exact ⟨h1, h2, h3 (by decide) (by decide)⟩

/-- Claim C8: every engine state reachable from the start state by
`selectAnswer`, `advance` and `retreat` has its step index between 0 and
`questionCount` inclusive. -/
theorem claim_C8_reachable_bounds (s : WizardState) (h : ReachE s) :
    s.currentStepIndex ≤ questions.length := by
  induction h with
  | init => decide
  | select s s' qid v hs hsel ih =>
      unfold selectAnswer at hsel
      split at hsel
      · split at hsel
        · cases hsel
          exact ih
        · exact Except.noConfusion hsel
      · exact Except.noConfusion hsel
  | adv s s' hs hadv ih =>
      unfold advance at hadv
      cases hg : questions.get? s.currentStepIndex with
      | none => rw [hg] at hadv; exact Except.noConfusion hadv
      | some q =>
          rw [hg] at hadv
          cases hl : (lookupR s.answers q.id).isSome with
          | true =>
              simp only [hl, if_true] at hadv
              cases hadv
              exact questions_get_lt s.currentStepIndex q hg
          | false => simp [hl] at hadv
  | ret s hs ih =>
      unfold retreat
      split
      · exact le_trans (Nat.sub_le _ _) ih
      · exact ih

/-- Witness for C8: the start state itself is reachable and in bounds. -/
theorem claim_C8_witness :
    startState.currentStepIndex ≤ questions.length :=
  claim_C8_reachable_bounds startState ReachE.init

/-- Claim C9: `handleAnswer` changes only the entry for the recorded
question id — the step index and the submission flag are unchanged, the
recorded id now maps to the new value, and every other id keeps its
previous value. -/
theorem claim_C9_handleAnswer_frame (s : AppState) (qid v qid' : String) :
    (handleAnswer s qid v).currentStep = s.currentStep ∧
    (handleAnswer s qid v).submitted = s.submitted ∧
    lookupR (handleAnswer s qid v).responses qid = some v ∧
    (qid' ≠ qid →
      lookupR (handleAnswer s qid v).responses qid' = lookupR s.responses qid') := by
  refine ⟨rfl, rfl, ?_, ?_⟩
  · exact lookupR_setResponse_same s.responses qid v
  · intro h
    exact lookupR_setResponse_other s.responses qid v qid' h

/-- Witness for C9: recording the transparency answer leaves the
human-oversight entry untouched. -/
theorem claim_C9_witness :
    lookupR (handleAnswer initAppState "transparency" "none").responses
        "human_oversight" =
      lookupR initAppState.responses "human_oversight" :=
  (claim_C9_handleAnswer_frame initAppState "transparency" "none"
    "human_oversight").2.2.2 (by decide)

/-- Claim C10: every component state reachable through the UI keeps
`currentStep` strictly below `questions.length` (the forward operation at
the last step submits instead of incrementing), so the lookup
`questions[currentStep]` always yields a question. -/
theorem claim_C10_step_in_range (s : AppState) (h : ReachUI s) :
    s.currentStep < questions.length ∧ (currentQuestionA s).isSome = true := by
  have h1 := reachUI_step_lt s h
  exact ⟨h1, questions_get_isSome s.currentStep h1⟩

/-- Witness for C10: the initial state is reachable, in range, and has a
current question. -/
theorem claim_C10_witness :
    initAppState.currentStep < questions.length ∧
    (currentQuestionA initAppState).isSome = true :=
  claim_C10_step_in_range initAppState ReachUI.init
